import Mathlib

/-!
Shallow embedding of `3rd.py` (VirtualBox Guest Additions installer script).

The script is a linear sequence of privileged shell-outs with one
try/except retry path.  We model a run as a computation over an
environment oracle `Env` (effective uid, per-invocation exit codes of
external commands, presence of the installer file, `uname -r` output,
the interactive reboot answer) that threads a state `St` recording the
number of subprocess invocations so far and a trace of observable
effects (`Event`s), and produces an `Outcome`: normal return,
`sys.exit`, or a propagating Python exception.

Modelling constraints (no claim depends on the unmodelled parts):
filesystem calls (`os.makedirs`, `os.rmdir`, `os.remove`,
`shutil.rmtree`) and `subprocess.check_output` are modelled as
always succeeding (their own failure modes are out of scope);
`argparse` is modelled by passing the parsed `--virtual-box-version`
string directly to `main`.  Line 52's `subprocess.run(command,
stdout=PIPE, stderr=PIPE)` passes a space-containing command string
without `shell=True`: Python takes the entire string as the program
name, no such executable exists, and the call raises
`FileNotFoundError` before any process is spawned — the model raises
accordingly (`directRun`), and Python's built-in `FileNotFoundError`
is a third exception kind, caught by neither `except` clause of
`main`. -/

namespace VmUtils

/-- The exceptions that can arise in `3rd.py`: the two classes it
defines (`VirtualBoxAddonsInstallException` and its subclass
`VirtualBoxAddonsFileNotFoundException`), each carrying a message, and
Python's built-in `FileNotFoundError` raised by `subprocess` when the
program to execute does not exist (line 52).  The built-in is not a
`VirtualBoxAddonsInstallException`, so neither `except` clause in
`main` catches it. -/
inductive PyExc where
  | vboxInstall (message : String)
  | vboxFileNotFound (message : String)
  | fileNotFoundError (message : String)
deriving DecidableEq

/-- Observable effects of a run: prints to stdout/stderr, shell command
invocations (`subprocess.run(cmd, shell=True)`), direct invocations
with piped output (`subprocess.run(cmd, stdout=PIPE, stderr=PIPE)`),
`subprocess.check_output`, filesystem operations, and reading
interactive input. -/
inductive Event where
  | printOut (s : String)
  | printErr (s : String)
  | runShell (cmd : String)
  | runDirect (cmd : String)
  | checkOutput (cmd : String)
  | makedirs (dir : String)
  | rmdir (dir : String)
  | removeFile (path : String)
  | rmtree (dir : String)
  | readInput (prompt : String)
deriving DecidableEq

/-- Environment oracle for one run: effective uid, the exit code the
n-th subprocess invocation of a given command string would return, file
existence, raw `uname -r` output, and the answer typed at the reboot
prompt. -/
structure Env where
  euid : Nat
  cmdExit : Nat → String → Int
  isfile : String → Bool
  uname : String
  rebootInput : String

/-- Run state: number of subprocess invocations issued so far and the
trace of events. -/
structure St where
  nShell : Nat
  trace : List Event
deriving DecidableEq

/-- Result of a computation: normal value, process termination via
`sys.exit code`, or a propagating exception. -/
inductive Outcome (α : Type) where
  | ok (a : α)
  | exited (code : Nat)
  | raised (e : PyExc)
deriving DecidableEq

/-- A Python computation: state in, state plus outcome out. -/
abbrev PyM (α : Type) : Type := St → St × Outcome α

/-- Sequencing: a `sys.exit` or a propagating exception skips the rest. -/
def pbind {α β : Type} (x : PyM α) (f : α → PyM β) : PyM β := fun s =>
  match x s with
  | (s1, Outcome.ok a) => f a s1
  | (s1, Outcome.exited c) => (s1, Outcome.exited c)
  | (s1, Outcome.raised e) => (s1, Outcome.raised e)

/-- Pure return. -/
def pret {α : Type} (a : α) : PyM α := fun s => (s, Outcome.ok a)

/-- Record one observable event. -/
def emit (e : Event) : PyM Unit := fun s =>
  ({ s with trace := s.trace ++ [e] }, Outcome.ok ())

/-- `sys.exit(code)`: unwinds to process termination. -/
def sysExit {α : Type} (code : Nat) : PyM α := fun s => (s, Outcome.exited code)

/-- `raise e`: an exception starts (or continues) propagating. -/
def pyRaise {α : Type} (e : PyExc) : PyM α := fun s => (s, Outcome.raised e)

/-- `subprocess.run(cmd, shell=True)`: records the invocation, consumes
one oracle step, returns the return code. -/
def shellRun (env : Env) (cmd : String) : PyM Int := fun s =>
  (⟨s.nShell + 1, s.trace ++ [Event.runShell cmd]⟩, Outcome.ok (env.cmdExit s.nShell cmd))

/-- `subprocess.run(cmd, stdout=PIPE, stderr=PIPE)` (no shell), as on
line 52 of the source.  With `shell=True` absent, Python takes the
entire space-containing string as the name of the program to execute;
no executable with that name exists, so the call raises
`FileNotFoundError` before any process is spawned: no command is
issued, no event is recorded, no oracle step is consumed. -/
def directRun (_env : Env) (cmd : String) : PyM Int := fun s =>
  (s, Outcome.raised (PyExc.fileNotFoundError cmd))

/-- `subprocess.check_output(cmd, shell=True).decode()`: records the
invocation and returns the oracle's `uname` output (the only use in the
source is `uname -r`; its failure mode is not modelled). -/
def checkOutputRun (env : Env) (cmd : String) : PyM String := fun s =>
  (⟨s.nShell + 1, s.trace ++ [Event.checkOutput cmd]⟩, Outcome.ok env.uname)

/-- A `try` block with an exception handler: the handler receives a
propagating exception; normal returns and `sys.exit` pass through. -/
def pyTry {α : Type} (body : PyM α) (handler : PyExc → PyM α) : PyM α := fun s =>
  match body s with
  | (s1, Outcome.ok a) => (s1, Outcome.ok a)
  | (s1, Outcome.exited c) => (s1, Outcome.exited c)
  | (s1, Outcome.raised e) => handler e s1

/-- Python `str.strip()`: drop leading and trailing whitespace. -/
def pyStrip (s : String) : String :=
  ⟨((s.data.dropWhile Char.isWhitespace).reverse.dropWhile Char.isWhitespace).reverse⟩

/-- Python `str.lower()`. -/
def pyLower (s : String) : String := ⟨s.data.map Char.toLower⟩

/-- `REQUIRED_PACKAGES` from the source. -/
def REQUIRED_PACKAGES : List String :=
  ["bison", "elfutils-libelf-devel", "flex", "gcc", "glibc-devel", "glibc-headers",
   "kernel-devel", "kernel-headers", "libxcrypt-devel", "libzstd-devel",
   "m4", "make", "openssl-devel", "zlib-devel"]

/-- `ensure_root`: exit 1 unless euid is 0. -/
def ensure_root (env : Env) : PyM Unit :=
  if env.euid ≠ 0 then
    pbind (emit (Event.printOut "This script must be run as root!")) (fun _ => sysExit 1)
  else pret ()

/-- `run_command(command, check=True)`: run via the shell; on nonzero
return code with `check` enabled, print to stderr and `sys.exit(1)`;
otherwise return the result. -/
def run_command (env : Env) (command : String) (check : Bool := true) : PyM Int :=
  pbind (shellRun env command) (fun rc =>
    if rc ≠ 0 ∧ check = true then
      pbind (emit (Event.printErr ("Command failed: " ++ command ++ ". Exiting.")))
        (fun _ => sysExit 1)
    else pret rc)

/-- `install_required_packages`. -/
def install_required_packages (env : Env) : PyM Unit :=
  pbind (emit (Event.printOut
      ("Attempting to install required packages: " ++ String.intercalate ", " REQUIRED_PACKAGES)))
    (fun _ =>
  pbind (run_command env ("dnf install -y " ++ String.intercalate " " REQUIRED_PACKAGES))
    (fun _ => pret ()))

/-- `install_kernel_headers(kernel_version)`: the version-pinned dnf
install command is issued through `run_command` (strict); line 52 then
attempts the same command string a second time via `subprocess.run`
without a shell, which raises `FileNotFoundError` (see `directRun`), so
the function never returns normally. -/
def install_kernel_headers (env : Env) (kernel_version : String) : PyM Unit :=
  pbind (emit (Event.printOut "Kernel headers or development files not found. Installing..."))
    (fun _ =>
  pbind (run_command env
      ("dnf install -y kernel-devel-" ++ kernel_version ++ " kernel-headers-" ++ kernel_version))
    (fun _ =>
  let command :=
    "dnf install -y kernel-devel-" ++ kernel_version ++ " kernel-headers-" ++ kernel_version
  pbind (directRun env command) (fun _ => pret ())))

/-- `clean_old_kernel_headers`. -/
def clean_old_kernel_headers (env : Env) : PyM Unit :=
  pbind (emit (Event.printOut "Cleaning up old kernel headers and development files..."))
    (fun _ =>
  pbind (run_command env "dnf remove -y $(dnf repoquery --installonly --latest-limit=-1 -q)")
    (fun _ =>
  pbind (emit (Event.printOut "Old kernel headers cleaned up.")) (fun _ => pret ())))

/-- `download_iso(iso_url, iso_file)`. -/
def download_iso (env : Env) (iso_url iso_file : String) : PyM Unit :=
  pbind (emit (Event.printOut "Downloading VirtualBox Guest Additions ISO..."))
    (fun _ =>
  pbind (run_command env ("wget -q " ++ iso_url ++ " -O " ++ iso_file)) (fun _ => pret ()))

/-- `create_directories(mount_dir, target_dir)`. -/
def create_directories (mount_dir target_dir : String) : PyM Unit :=
  pbind (emit (Event.printOut "Creating directories...")) (fun _ =>
  pbind (emit (Event.makedirs mount_dir)) (fun _ =>
  pbind (emit (Event.makedirs target_dir)) (fun _ => pret ())))

/-- `mount_iso(iso_file, mount_dir)`. -/
def mount_iso (env : Env) (iso_file mount_dir : String) : PyM Unit :=
  pbind (emit (Event.printOut "Mounting the ISO...")) (fun _ =>
  pbind (run_command env ("mount -o loop " ++ iso_file ++ " " ++ mount_dir)) (fun _ => pret ()))

/-- `copy_contents(mount_dir, target_dir)`. -/
def copy_contents (env : Env) (mount_dir target_dir : String) : PyM Unit :=
  pbind (emit (Event.printOut ("Copying contents to " ++ target_dir ++ "..."))) (fun _ =>
  pbind (run_command env ("cp -r " ++ mount_dir ++ "/* " ++ target_dir)) (fun _ => pret ()))

/-- `unmount_iso(mount_dir)`. -/
def unmount_iso (env : Env) (mount_dir : String) : PyM Unit :=
  pbind (emit (Event.printOut "Unmounting the ISO...")) (fun _ =>
  pbind (run_command env ("umount " ++ mount_dir)) (fun _ => pret ()))

/-- `clean_up(mount_dir, target_dir, iso_file)`. -/
def clean_up (mount_dir target_dir iso_file : String) : PyM Unit :=
  pbind (emit (Event.printOut "Cleaning up...")) (fun _ =>
  pbind (emit (Event.rmdir mount_dir)) (fun _ =>
  pbind (emit (Event.removeFile iso_file)) (fun _ =>
  pbind (emit (Event.rmtree target_dir)) (fun _ => pret ()))))

/-- `run_guest_additions(target_dir)`: run the extracted installer if
present, else print to stderr and `sys.exit(1)`. -/
def run_guest_additions (env : Env) (target_dir : String) : PyM Unit :=
  let vbox_additions_script := target_dir ++ "/VBoxLinuxAdditions.run"
  if env.isfile vbox_additions_script = true then
    pbind (emit (Event.printOut ("Running " ++ vbox_additions_script ++ "...")))
      (fun _ =>
    pbind (run_command env vbox_additions_script) (fun _ => pret ()))
  else
    pbind (emit (Event.printErr "VBoxLinuxAdditions.run not found. Exiting."))
      (fun _ => sysExit 1)

/-- `prompt_reboot`. -/
def prompt_reboot (env : Env) : PyM Unit :=
  pbind (emit (Event.readInput
      "The installation is complete. Changes will not take effect until reboot is completed. Would you like to reboot the system now? (y/n): "))
    (fun _ =>
  let reboot := pyLower (pyStrip env.rebootInput)
  if reboot = "y" then
    pbind (emit (Event.printOut "Rebooting the system...")) (fun _ =>
    pbind (run_command env "reboot") (fun _ => pret ()))
  else
    pbind (emit (Event.printOut "Reboot skipped.")) (fun _ => pret ()))

/-- `main`, with the parsed `--virtual-box-version` value passed in.
The try/except structure mirrors lines 135-151 of the source: the
`VirtualBoxAddonsFileNotFoundException` handler prints the message to
stderr and swallows; the `VirtualBoxAddonsInstallException` handler
runs the kernel-headers fallback with one retry. -/
def main (env : Env) (virtual_box_version : String) : PyM Unit :=
  let iso_url := "https://download.virtualbox.org/virtualbox/" ++ virtual_box_version ++
    "/VBoxGuestAdditions_" ++ virtual_box_version ++ ".iso"
  let iso_file := "/tmp/VBoxGuestAdditions_" ++ virtual_box_version ++ ".iso"
  let mount_dir := "/mnt/iso"
  let target_dir := "/tmp/VBox_GA"
  pbind (ensure_root env) (fun _ =>
  pbind (install_required_packages env) (fun _ =>
  pbind (download_iso env iso_url iso_file) (fun _ =>
  pbind (create_directories mount_dir target_dir) (fun _ =>
  pbind (mount_iso env iso_file mount_dir) (fun _ =>
  pbind (copy_contents env mount_dir target_dir) (fun _ =>
  pbind (unmount_iso env mount_dir) (fun _ =>
  pbind (pyTry
      (pbind (emit (Event.printOut "Attempting to install addons with existing kernal headers."))
        (fun _ => run_guest_additions env target_dir))
      (fun e =>
        match e with
        | PyExc.vboxFileNotFound msg => emit (Event.printErr msg)
        | PyExc.fileNotFoundError msg => pyRaise (PyExc.fileNotFoundError msg)
        | PyExc.vboxInstall _ =>
          pbind (checkOutputRun env "uname -r") (fun out =>
          let kernel_version := pyStrip out
          pbind (emit (Event.printOut
              ("Failed to install with existing kernal headers. Installing headers for kernal "
                ++ kernel_version)))
            (fun _ =>
          pbind (install_kernel_headers env kernel_version) (fun _ =>
          pbind (clean_old_kernel_headers env) (fun _ =>
          pbind (emit (Event.printOut
              ("Attempting to install addons with kernal " ++ kernel_version ++ " headers.")))
            (fun _ =>
          pyTry (run_guest_additions env target_dir)
            (fun e2 =>
              match e2 with
              | PyExc.fileNotFoundError msg => pyRaise (PyExc.fileNotFoundError msg)
              | _ =>
                pbind (emit (Event.printOut
                    ("Failed to install addons with kernal " ++ kernel_version
                      ++ " headers. Exiting...")))
                  (fun _ => sysExit 1)))))))))
    (fun _ =>
  pbind (clean_up mount_dir target_dir iso_file) (fun _ =>
  pbind (prompt_reboot env) (fun _ =>
  emit (Event.printOut "Done!")))))))))))

/-- Initial state of a run. -/
def initSt : St := ⟨0, []⟩

/-- A whole script run (`if __name__ == "__main__": main()`). -/
def runScript (env : Env) (virtual_box_version : String) : St × Outcome Unit :=
  main env virtual_box_version initSt

/-- Process exit status of a run: 0 on normal completion, the code of a
`sys.exit`, 1 on an uncaught exception (Python prints a traceback and
exits 1). -/
def exitCode (env : Env) (virtual_box_version : String) : Nat :=
  match (runScript env virtual_box_version).2 with
  | Outcome.ok _ => 0
  | Outcome.exited c => c
  | Outcome.raised _ => 1

/-- The event trace of a whole run. -/
def progTrace (env : Env) (virtual_box_version : String) : List Event :=
  (runScript env virtual_box_version).1.trace

/-- Path of the extracted installer binary used by `main`
(`os.path.join("/tmp/VBox_GA", "VBoxLinuxAdditions.run")`). -/
def installerScript : String := "/tmp/VBox_GA/VBoxLinuxAdditions.run"

/-- Does an outcome represent a propagating exception? -/
def isRaisedOutcome {α : Type} : Outcome α → Bool
  | Outcome.raised _ => true
  | _ => false

/-- Events that could only be produced by the kernel-headers fallback
path of `main`: the `uname -r` query, and a direct (piped) invocation —
kept in `Event` for the latter even though `directRun` raises before it
could ever record one, so that absence claims cover both. -/
def isFallbackEvent : Event → Bool
  | Event.checkOutput _ => true
  | Event.runDirect _ => true
  | _ => false

/-- Shell command invocations. -/
def isShellEvent : Event → Bool
  | Event.runShell _ => true
  | _ => false

/-- Events produced by `clean_up`'s filesystem removals. -/
def isCleanupEvent : Event → Bool
  | Event.rmdir _ => true
  | Event.removeFile _ => true
  | Event.rmtree _ => true
  | _ => false

/-- The interactive reboot prompt. -/
def isPromptEvent : Event → Bool
  | Event.readInput _ => true
  | _ => false

/-- Package-manager, download, mount, copy, installer, filesystem or
input activity: everything beyond plain printing. -/
def isActionEvent : Event → Bool
  | Event.printOut _ => false
  | Event.printErr _ => false
  | _ => true

/-- Mount-directory removal events. -/
def isRmdirEvent : Event → Bool
  | Event.rmdir _ => true
  | _ => false

/-- File removal events (`os.remove`). -/
def isRemoveFileEvent : Event → Bool
  | Event.removeFile _ => true
  | _ => false

/-- Recursive directory removal events (`shutil.rmtree`). -/
def isRmtreeEvent : Event → Bool
  | Event.rmtree _ => true
  | _ => false

/-- The reboot prompt appears in the trace, and a mount-directory
removal, a file removal and a recursive directory removal each appear
strictly before it. -/
def cleanupBeforePrompt (l : List Event) : Bool :=
  decide (l.findIdx isPromptEvent < l.length) &&
  decide (l.findIdx isRmdirEvent < l.findIdx isPromptEvent) &&
  decide (l.findIdx isRemoveFileEvent < l.findIdx isPromptEvent) &&
  decide (l.findIdx isRmtreeEvent < l.findIdx isPromptEvent)

/-- A run in which the script is root, every external command succeeds,
the installer binary is present, and the reboot prompt is answered "n". -/
def envAllOk : Env := ⟨0, fun _ _ => 0, fun _ => true, "6.11.0-63.fc41.x86_64\n", "n"⟩

/-- Same as `envAllOk` but run without root privileges (euid 1000). -/
def envNonRoot : Env := { envAllOk with euid := 1000 }

/-- Same as `envAllOk` but every external command exits 1. -/
def envCmdFail : Env := { envAllOk with cmdExit := fun _ _ => 1 }

/-- Same as `envAllOk` but the installer binary is absent. -/
def envNoFile : Env := { envAllOk with isfile := fun _ => false }

/-- Same as `envAllOk` but the sixth subprocess invocation — the first
installer attempt, after the five preceding setup commands — fails,
while any later invocation (in particular a retry of the installer)
would succeed. -/
def envFirstRetryOk : Env := { envAllOk with cmdExit := fun n _ => if n = 5 then 1 else 0 }

/-- Same as `envAllOk` but the sixth and every later subprocess
invocation fails: every installer attempt, first or retried, fails. -/
def envInstallerAlwaysFails : Env :=
  { envAllOk with cmdExit := fun n _ => if 5 ≤ n then 1 else 0 }

/-- Same as `envAllOk` but the second subprocess invocation (the ISO
download) fails. -/
def envWgetFails : Env := { envAllOk with cmdExit := fun n _ => if n = 1 then 1 else 0 }

section Structural

/-- A computation never produces a propagating exception, from any state. -/
def NoRaise {α : Type} (m : PyM α) : Prop :=
  ∀ s, isRaisedOutcome ((m s).2) = false

/-- A computation only appends events, and none of the appended events
belongs to the kernel-headers fallback path. -/
def FallbackFree {α : Type} (m : PyM α) : Prop :=
  ∀ s, ∃ l, (m s).1.trace = s.trace ++ l ∧ l.all (fun e => ! isFallbackEvent e) = true

lemma noRaise_pbind {α β : Type} {x : PyM α} {f : α → PyM β}
    (hx : NoRaise x) (hf : ∀ a, NoRaise (f a)) : NoRaise (pbind x f) := by
  intro s
  have hx' := hx s
  unfold pbind
  cases hxs : x s with
  | mk s1 o =>
    rw [hxs] at hx'
    cases o with
    | ok a => exact hf a s1
    | exited c => rfl
    | raised e => simp [isRaisedOutcome] at hx'

lemma fallbackFree_pbind {α β : Type} {x : PyM α} {f : α → PyM β}
    (hx : FallbackFree x) (hf : ∀ a, FallbackFree (f a)) : FallbackFree (pbind x f) := by
  intro s
  obtain ⟨l1, ht1, hp1⟩ := hx s
  unfold pbind
  cases hxs : x s with
  | mk s1 o =>
    rw [hxs] at ht1
    cases o with
    | ok a =>
      obtain ⟨l2, ht2, hp2⟩ := hf a s1
      refine ⟨l1 ++ l2, ?_, ?_⟩
      · rw [ht2, ht1, List.append_assoc]
      · simp only [List.all_append, hp1, hp2, Bool.and_self]
    | exited c => exact ⟨l1, ht1, hp1⟩
    | raised e => exact ⟨l1, ht1, hp1⟩

lemma noRaise_pret {α : Type} (a : α) : NoRaise (pret a) := fun _ => rfl

lemma fallbackFree_pret {α : Type} (a : α) : FallbackFree (pret a) :=
  fun s => ⟨[], by simp [pret], rfl⟩

lemma noRaise_sysExit {α : Type} (c : Nat) : NoRaise (sysExit (α := α) c) := fun _ => rfl

lemma fallbackFree_sysExit {α : Type} (c : Nat) : FallbackFree (sysExit (α := α) c) :=
  fun s => ⟨[], by simp [sysExit], rfl⟩

lemma noRaise_emit (e : Event) : NoRaise (emit e) := fun _ => rfl

lemma fallbackFree_emit (e : Event) (he : isFallbackEvent e = false) :
    FallbackFree (emit e) :=
  fun s => ⟨[e], by simp [emit], by simp [he]⟩

lemma noRaise_shellRun (env : Env) (cmd : String) : NoRaise (shellRun env cmd) := fun _ => rfl

lemma fallbackFree_shellRun (env : Env) (cmd : String) : FallbackFree (shellRun env cmd) :=
  fun s => ⟨[Event.runShell cmd], by simp [shellRun], by simp [isFallbackEvent]⟩

lemma noRaise_ite {α : Type} {c : Prop} [Decidable c] {x y : PyM α}
    (hx : NoRaise x) (hy : NoRaise y) : NoRaise (if c then x else y) := by
  by_cases h : c <;> simp [h, hx, hy]

lemma fallbackFree_ite {α : Type} {c : Prop} [Decidable c] {x y : PyM α}
    (hx : FallbackFree x) (hy : FallbackFree y) : FallbackFree (if c then x else y) := by
  by_cases h : c <;> simp [h, hx, hy]

/-- When the body of a `try` never raises, the handler is dead code:
`pyTry body handler` is the body itself. -/
lemma pyTry_eq_of_noRaise {α : Type} {body : PyM α} (h : NoRaise body)
    (handler : PyExc → PyM α) : pyTry body handler = body := by
  funext s
  have h' := h s
  unfold pyTry
  cases hbs : body s with
  | mk s1 o =>
    rw [hbs] at h'
    cases o with
    | ok a => rfl
    | exited c => rfl
    | raised e => simp [isRaisedOutcome] at h'

lemma noRaise_run_command (env : Env) (command : String) (check : Bool) :
    NoRaise (run_command env command check) := by
  unfold run_command
  refine noRaise_pbind (noRaise_shellRun env command) (fun rc => ?_)
  exact noRaise_ite
    (noRaise_pbind (noRaise_emit _) (fun _ => noRaise_sysExit 1))
    (noRaise_pret rc)

lemma fallbackFree_run_command (env : Env) (command : String) (check : Bool) :
    FallbackFree (run_command env command check) := by
  unfold run_command
  refine fallbackFree_pbind (fallbackFree_shellRun env command) (fun rc => ?_)
  exact fallbackFree_ite
    (fallbackFree_pbind (fallbackFree_emit _ rfl) (fun _ => fallbackFree_sysExit 1))
    (fallbackFree_pret rc)

lemma noRaise_run_guest_additions (env : Env) (target_dir : String) :
    NoRaise (run_guest_additions env target_dir) := by
  unfold run_guest_additions
  exact noRaise_ite
    (noRaise_pbind (noRaise_emit _) (fun _ =>
      noRaise_pbind (noRaise_run_command env _ true) (fun _ => noRaise_pret ())))
    (noRaise_pbind (noRaise_emit _) (fun _ => noRaise_sysExit 1))

lemma fallbackFree_run_guest_additions (env : Env) (target_dir : String) :
    FallbackFree (run_guest_additions env target_dir) := by
  unfold run_guest_additions
  exact fallbackFree_ite
    (fallbackFree_pbind (fallbackFree_emit _ rfl) (fun _ =>
      fallbackFree_pbind (fallbackFree_run_command env _ true) (fun _ => fallbackFree_pret ())))
    (fallbackFree_pbind (fallbackFree_emit _ rfl) (fun _ => fallbackFree_sysExit 1))

lemma noRaise_main (env : Env) (v : String) : NoRaise (main env v) := by
  unfold main ensure_root install_required_packages download_iso create_directories
    mount_iso copy_contents unmount_iso clean_up prompt_reboot
  dsimp only
  rw [pyTry_eq_of_noRaise
    (noRaise_pbind (noRaise_emit _) (fun _ => noRaise_run_guest_additions env _))]
  refine noRaise_pbind (noRaise_ite
      (noRaise_pbind (noRaise_emit _) (fun _ => noRaise_sysExit 1)) (noRaise_pret ()))
    (fun _ => ?_)
  refine noRaise_pbind (noRaise_pbind (noRaise_emit _) (fun _ =>
    noRaise_pbind (noRaise_run_command env _ true) (fun _ => noRaise_pret ()))) (fun _ => ?_)
  refine noRaise_pbind (noRaise_pbind (noRaise_emit _) (fun _ =>
    noRaise_pbind (noRaise_run_command env _ true) (fun _ => noRaise_pret ()))) (fun _ => ?_)
  refine noRaise_pbind (noRaise_pbind (noRaise_emit _) (fun _ =>
    noRaise_pbind (noRaise_emit _) (fun _ =>
      noRaise_pbind (noRaise_emit _) (fun _ => noRaise_pret ())))) (fun _ => ?_)
  refine noRaise_pbind (noRaise_pbind (noRaise_emit _) (fun _ =>
    noRaise_pbind (noRaise_run_command env _ true) (fun _ => noRaise_pret ()))) (fun _ => ?_)
  refine noRaise_pbind (noRaise_pbind (noRaise_emit _) (fun _ =>
    noRaise_pbind (noRaise_run_command env _ true) (fun _ => noRaise_pret ()))) (fun _ => ?_)
  refine noRaise_pbind (noRaise_pbind (noRaise_emit _) (fun _ =>
    noRaise_pbind (noRaise_run_command env _ true) (fun _ => noRaise_pret ()))) (fun _ => ?_)
  refine noRaise_pbind (noRaise_pbind (noRaise_emit _) (fun _ =>
    noRaise_run_guest_additions env _)) (fun _ => ?_)
  refine noRaise_pbind (noRaise_pbind (noRaise_emit _) (fun _ =>
    noRaise_pbind (noRaise_emit _) (fun _ =>
      noRaise_pbind (noRaise_emit _) (fun _ =>
        noRaise_pbind (noRaise_emit _) (fun _ => noRaise_pret ()))))) (fun _ => ?_)
  refine noRaise_pbind ?_ (fun _ => noRaise_emit _)
  refine noRaise_pbind (noRaise_emit _) (fun _ => ?_)
  exact noRaise_ite
    (noRaise_pbind (noRaise_emit _) (fun _ =>
      noRaise_pbind (noRaise_run_command env _ true) (fun _ => noRaise_pret ())))
    (noRaise_pbind (noRaise_emit _) (fun _ => noRaise_pret ()))

lemma fallbackFree_main (env : Env) (v : String) : FallbackFree (main env v) := by
  unfold main ensure_root install_required_packages download_iso create_directories
    mount_iso copy_contents unmount_iso clean_up prompt_reboot
  dsimp only
  rw [pyTry_eq_of_noRaise
    (noRaise_pbind (noRaise_emit _) (fun _ => noRaise_run_guest_additions env _))]
  refine fallbackFree_pbind (fallbackFree_ite
      (fallbackFree_pbind (fallbackFree_emit _ rfl) (fun _ => fallbackFree_sysExit 1))
      (fallbackFree_pret ()))
    (fun _ => ?_)
  refine fallbackFree_pbind (fallbackFree_pbind (fallbackFree_emit _ rfl) (fun _ =>
    fallbackFree_pbind (fallbackFree_run_command env _ true) (fun _ => fallbackFree_pret ())))
    (fun _ => ?_)
  refine fallbackFree_pbind (fallbackFree_pbind (fallbackFree_emit _ rfl) (fun _ =>
    fallbackFree_pbind (fallbackFree_run_command env _ true) (fun _ => fallbackFree_pret ())))
    (fun _ => ?_)
  refine fallbackFree_pbind (fallbackFree_pbind (fallbackFree_emit _ rfl) (fun _ =>
    fallbackFree_pbind (fallbackFree_emit _ rfl) (fun _ =>
      fallbackFree_pbind (fallbackFree_emit _ rfl) (fun _ => fallbackFree_pret ()))))
    (fun _ => ?_)
  refine fallbackFree_pbind (fallbackFree_pbind (fallbackFree_emit _ rfl) (fun _ =>
    fallbackFree_pbind (fallbackFree_run_command env _ true) (fun _ => fallbackFree_pret ())))
    (fun _ => ?_)
  refine fallbackFree_pbind (fallbackFree_pbind (fallbackFree_emit _ rfl) (fun _ =>
    fallbackFree_pbind (fallbackFree_run_command env _ true) (fun _ => fallbackFree_pret ())))
    (fun _ => ?_)
  refine fallbackFree_pbind (fallbackFree_pbind (fallbackFree_emit _ rfl) (fun _ =>
    fallbackFree_pbind (fallbackFree_run_command env _ true) (fun _ => fallbackFree_pret ())))
    (fun _ => ?_)
  refine fallbackFree_pbind (fallbackFree_pbind (fallbackFree_emit _ rfl) (fun _ =>
    fallbackFree_run_guest_additions env _)) (fun _ => ?_)
  refine fallbackFree_pbind (fallbackFree_pbind (fallbackFree_emit _ rfl) (fun _ =>
    fallbackFree_pbind (fallbackFree_emit _ rfl) (fun _ =>
      fallbackFree_pbind (fallbackFree_emit _ rfl) (fun _ =>
        fallbackFree_pbind (fallbackFree_emit _ rfl) (fun _ => fallbackFree_pret ())))))
    (fun _ => ?_)
  refine fallbackFree_pbind ?_ (fun _ => fallbackFree_emit _ rfl)
  refine fallbackFree_pbind (fallbackFree_emit _ rfl) (fun _ => ?_)
  exact fallbackFree_ite
    (fallbackFree_pbind (fallbackFree_emit _ rfl) (fun _ =>
      fallbackFree_pbind (fallbackFree_run_command env _ true) (fun _ => fallbackFree_pret ())))
    (fallbackFree_pbind (fallbackFree_emit _ rfl) (fun _ => fallbackFree_pret ()))

end Structural

/-- Claim C1. The claim states that when the first installer invocation
reports a generic failure, the program runs the full fallback (kernel
version query, pinned header install, old-kernel purge, one retry).
The code does not: `run_command` terminates the process from inside the
first attempt.  At the claim's scenario — installer present, first
installer invocation fails, a retry would succeed — the run exits with
status 1, its trace contains none of the fallback-only events (the
`uname -r` query, the piped dnf invocation), and exactly six shell
commands were issued (the five setup commands and the single installer
attempt): no pinned header install, no purge, no retry. -/
theorem claim_C1 :
    exitCode envFirstRetryOk "7.0.0" = 1 ∧
    (progTrace envFirstRetryOk "7.0.0").all (fun e => ! isFallbackEvent e) = true ∧
    (progTrace envFirstRetryOk "7.0.0").countP isShellEvent = 6 := by decide

/-- Claim C2. The claim states that a missing installer binary is
logged and swallowed with the flow continuing to cleanup and the reboot
prompt.  The code instead terminates: with the binary absent and
everything else fine, the run logs the failure to stderr and exits with
status 1, and the trace contains no cleanup removal and no reboot
prompt event. -/
theorem claim_C2 :
    exitCode envNoFile "7.0.0" = 1 ∧
    Event.printErr "VBoxLinuxAdditions.run not found. Exiting." ∈ progTrace envNoFile "7.0.0" ∧
    (progTrace envNoFile "7.0.0").all (fun e => ! isCleanupEvent e) = true ∧
    (progTrace envNoFile "7.0.0").all (fun e => ! isPromptEvent e) = true := by decide

/-- Claim C3. No operation ever produces a propagating
`VirtualBoxAddonsInstallException` or
`VirtualBoxAddonsFileNotFoundException`: `run_command` and
`run_guest_additions` never raise from any state in any environment,
no whole run ends in a raised exception, and consequently the
kernel-headers fallback inside `main`'s handlers is unreachable — no
run's trace contains a fallback-only event. -/
theorem claim_C3 :
    (∀ (env : Env) (command : String) (check : Bool) (s : St),
      isRaisedOutcome ((run_command env command check s).2) = false) ∧
    (∀ (env : Env) (target_dir : String) (s : St),
      isRaisedOutcome ((run_guest_additions env target_dir s).2) = false) ∧
    (∀ (env : Env) (v : String),
      isRaisedOutcome ((runScript env v).2) = false) ∧
    (∀ (env : Env) (v : String),
      (progTrace env v).all (fun e => ! isFallbackEvent e) = true) := by
  refine ⟨fun env c chk s => noRaise_run_command env c chk s,
    fun env t s => noRaise_run_guest_additions env t s,
    fun env v => noRaise_main env v initSt,
    fun env v => ?_⟩
  obtain ⟨l, ht, hp⟩ := fallbackFree_main env v initSt
  have ht' : progTrace env v = l := by
    simp only [progTrace, runScript]
    rw [ht]
    simp [initSt]
  rw [ht']
  exact hp

/-- Claim C4. The claim states that a run whose first installer attempt
fails generically and whose retry succeeds installs kernel headers
exactly once, prunes old kernels exactly once and ends with cleanup and
the reboot prompt without a fatal exit.  The code disagrees: in the
environment where the first installer invocation fails and any retry
would succeed, the run exits with status 1, headers are never installed
(no fallback-only event, in particular no piped dnf invocation),
cleanup never runs and the reboot prompt is never shown. -/
theorem claim_C4 :
    exitCode envFirstRetryOk "7.0.0" = 1 ∧
    (progTrace envFirstRetryOk "7.0.0").all (fun e => ! isFallbackEvent e) = true ∧
    (progTrace envFirstRetryOk "7.0.0").all (fun e => ! isCleanupEvent e) = true ∧
    (progTrace envFirstRetryOk "7.0.0").all (fun e => ! isPromptEvent e) = true := by decide

/-- Counterexample to claim C5 as stated.  The claim says a single call
to `install_kernel_headers` issues the pinned dnf command twice, the
second time directly with its output captured and discarded.  At a
concrete environment in which the strict-checked invocation succeeds,
the call's trace records exactly one issuance of the command (the shell
invocation of the strict runner) and no direct invocation, and the call
does not return normally: it ends with a propagating
`FileNotFoundError`, because line 52 passes the whole space-containing
command string to `subprocess.run` without `shell=True`. -/
theorem claim_C5_counterexample :
    (install_kernel_headers envAllOk "6.1.0" initSt).1.trace =
      [Event.printOut "Kernel headers or development files not found. Installing...",
       Event.runShell "dnf install -y kernel-devel-6.1.0 kernel-headers-6.1.0"] ∧
    (install_kernel_headers envAllOk "6.1.0" initSt).2 =
      Outcome.raised (PyExc.fileNotFoundError
        "dnf install -y kernel-devel-6.1.0 kernel-headers-6.1.0") := by decide

/-- Claim C5, amended.  For every kernel version string, environment
and state, a single call to `install_kernel_headers` issues the
version-pinned dnf install command exactly once, through the
strict-checked command runner, and never a second time: if that strict
invocation succeeds, line 52's direct `subprocess.run` of the same
space-containing string without a shell raises `FileNotFoundError`
(nothing is issued, no output captured) and the call ends with that
propagating exception; if it fails, the strict runner terminates the
process with status 1.  Either way no second issuance occurs and the
call never returns normally. -/
theorem claim_C5 (env : Env) (kernel_version : String) (s : St) :
    (env.cmdExit s.nShell
        ("dnf install -y kernel-devel-" ++ kernel_version ++ " kernel-headers-" ++ kernel_version)
        = 0 →
      (install_kernel_headers env kernel_version s).1.trace = s.trace ++
        [Event.printOut "Kernel headers or development files not found. Installing...",
         Event.runShell ("dnf install -y kernel-devel-" ++ kernel_version ++
           " kernel-headers-" ++ kernel_version)] ∧
      (install_kernel_headers env kernel_version s).2 =
        Outcome.raised (PyExc.fileNotFoundError
          ("dnf install -y kernel-devel-" ++ kernel_version ++
            " kernel-headers-" ++ kernel_version))) ∧
    (env.cmdExit s.nShell
        ("dnf install -y kernel-devel-" ++ kernel_version ++ " kernel-headers-" ++ kernel_version)
        ≠ 0 →
      (install_kernel_headers env kernel_version s).1.trace = s.trace ++
        [Event.printOut "Kernel headers or development files not found. Installing...",
         Event.runShell ("dnf install -y kernel-devel-" ++ kernel_version ++
           " kernel-headers-" ++ kernel_version),
         Event.printErr ("Command failed: " ++ ("dnf install -y kernel-devel-" ++
           kernel_version ++ " kernel-headers-" ++ kernel_version) ++ ". Exiting.")] ∧
      (install_kernel_headers env kernel_version s).2 = Outcome.exited 1) := by
  refine ⟨fun h => ⟨?_, ?_⟩, fun h => ⟨?_, ?_⟩⟩ <;>
    simp [install_kernel_headers, run_command, pbind, shellRun, directRun, emit, pret,
      sysExit, h]

/-- Witness for claim C5: both branches at concrete environments — a
succeeding strict invocation ends in the propagating
`FileNotFoundError`, a failing one in process termination with
status 1. -/
theorem claim_C5_witness :
    (install_kernel_headers envAllOk "6.1.0" initSt).2 =
      Outcome.raised (PyExc.fileNotFoundError
        "dnf install -y kernel-devel-6.1.0 kernel-headers-6.1.0") ∧
    (install_kernel_headers envCmdFail "6.1.0" initSt).2 = Outcome.exited 1 :=
  ⟨((claim_C5 envAllOk "6.1.0" initSt).1 rfl).2,
   ((claim_C5 envCmdFail "6.1.0" initSt).2 (by decide)).2⟩

/-- Claim C6. Exit status cases: 1 without root privileges; 0 on a full
success run (installer present, every command succeeds — covering both
the user-declined-reboot and the accepted-reboot endings); 1 when the
k-th strict-checked external command of the run fails (k = 0..5 are the
package install, download, mount, copy, unmount and installer commands;
k = 6 with an affirmative answer is the reboot command; k = 5 is also
the exhausted-installer case, since the single installer attempt the
code ever makes then fails); and 1 when the installer binary is
missing. -/
theorem claim_C6 :
    (∀ (env : Env) (v : String), env.euid ≠ 0 → exitCode env v = 1) ∧
    (∀ (env : Env) (v : String), env.euid = 0 → (∀ n c, env.cmdExit n c = 0) →
      env.isfile installerScript = true → exitCode env v = 0) ∧
    (∀ (env : Env) (v : String) (k : Nat), env.euid = 0 →
      env.isfile installerScript = true →
      (∀ n c, env.cmdExit n c = if n = k then 1 else 0) →
      (k < 6 ∨ (k = 6 ∧ pyLower (pyStrip env.rebootInput) = "y")) →
      exitCode env v = 1) ∧
    (∀ (env : Env) (v : String), env.euid = 0 → (∀ n c, env.cmdExit n c = 0) →
      env.isfile installerScript = false → exitCode env v = 1) := by
  refine ⟨?_, ?_, ?_, ?_⟩
  · intro env v h
    simp [exitCode, runScript, initSt, main, ensure_root, pbind, emit, sysExit, h]
  · intro env v hroot hcmd hfile
    have hfile' : env.isfile "/tmp/VBox_GA/VBoxLinuxAdditions.run" = true := hfile
    by_cases hr : pyLower (pyStrip env.rebootInput) = "y" <;>
      simp [exitCode, progTrace, runScript, initSt, main, ensure_root,
        install_required_packages, download_iso, create_directories, mount_iso,
        copy_contents, unmount_iso, clean_up, run_guest_additions, prompt_reboot,
        run_command, pyTry, pbind, pret, emit, sysExit, shellRun,
        hroot, hcmd, hfile', hr]
  · intro env v k hroot hfile hcmd hk
    have hfile' : env.isfile "/tmp/VBox_GA/VBoxLinuxAdditions.run" = true := hfile
    rcases hk with hk | ⟨hk6, hy⟩
    · interval_cases k <;>
        simp [exitCode, progTrace, runScript, initSt, main, ensure_root,
          install_required_packages, download_iso, create_directories, mount_iso,
          copy_contents, unmount_iso, clean_up, run_guest_additions, prompt_reboot,
          run_command, pyTry, pbind, pret, emit, sysExit, shellRun,
          hroot, hcmd, hfile']
    · subst hk6
      simp [exitCode, progTrace, runScript, initSt, main, ensure_root,
        install_required_packages, download_iso, create_directories, mount_iso,
        copy_contents, unmount_iso, clean_up, run_guest_additions, prompt_reboot,
        run_command, pyTry, pbind, pret, emit, sysExit, shellRun,
        hroot, hcmd, hfile', hy]
  · intro env v hroot hcmd hfile
    have hfile' : env.isfile "/tmp/VBox_GA/VBoxLinuxAdditions.run" = false := hfile
    simp [exitCode, progTrace, runScript, initSt, main, ensure_root,
      install_required_packages, download_iso, create_directories, mount_iso,
      copy_contents, unmount_iso, clean_up, run_guest_additions, prompt_reboot,
      run_command, pyTry, pbind, pret, emit, sysExit, shellRun,
      hroot, hcmd, hfile']

/-- Witness for claim C6 at concrete environments: a non-root run, a
fully successful run with declined reboot, a run whose download command
fails, and a run with the installer binary missing. -/
theorem claim_C6_witness :
    exitCode envNonRoot "6.1.48" = 1 ∧
    exitCode envAllOk "6.1.48" = 0 ∧
    exitCode envWgetFails "6.1.48" = 1 ∧
    exitCode envNoFile "6.1.48" = 1 :=
  ⟨claim_C6.1 envNonRoot "6.1.48" (by decide),
   claim_C6.2.1 envAllOk "6.1.48" rfl (fun _ _ => rfl) rfl,
   claim_C6.2.2.1 envWgetFails "6.1.48" 1 rfl rfl (fun _ _ => rfl) (Or.inl (by decide)),
   claim_C6.2.2.2 envNoFile "6.1.48" rfl (fun _ _ => rfl) rfl⟩

/-- Claim C7. For every command string and state: with strict checking
enabled, a nonzero exit code of the invoked command terminates the
whole process with status 1; with strict checking disabled, the nonzero
exit is ignored and execution continues, the runner returning the
result (the command's return code) to the caller, with only the shell
invocation recorded. -/
theorem claim_C7 (env : Env) (command : String) (s : St) :
    (env.cmdExit s.nShell command ≠ 0 →
      (run_command env command true s).2 = Outcome.exited 1) ∧
    ((run_command env command false s).2 = Outcome.ok (env.cmdExit s.nShell command) ∧
      (run_command env command false s).1 =
        ⟨s.nShell + 1, s.trace ++ [Event.runShell command]⟩) := by
  refine ⟨fun h => ?_, ?_, ?_⟩ <;>
    simp [run_command, pbind, shellRun, emit, sysExit, pret, *]

/-- Witness for claim C7 at a concrete failing command. -/
theorem claim_C7_witness :
    (run_command envCmdFail "false" true initSt).2 = Outcome.exited 1 ∧
    (run_command envCmdFail "false" false initSt).2 = Outcome.ok 1 :=
  ⟨(claim_C7 envCmdFail "false" initSt).1 (by decide),
    (claim_C7 envCmdFail "false" initSt).2.1⟩

/-- Claim C8. In every run whose first installer attempt succeeds (root,
installer present, all commands succeed), the kernel-headers fallback
is never invoked — no fallback-only event appears in the trace — and
cleanup of the mount directory, the ISO file and the extraction
directory still runs before the reboot prompt. -/
theorem claim_C8 (env : Env) (v : String) (hroot : env.euid = 0)
    (hcmd : ∀ n c, env.cmdExit n c = 0)
    (hfile : env.isfile installerScript = true) :
    (progTrace env v).all (fun e => ! isFallbackEvent e) = true ∧
    cleanupBeforePrompt (progTrace env v) = true := by
  have hfile' : env.isfile "/tmp/VBox_GA/VBoxLinuxAdditions.run" = true := hfile
  by_cases hr : pyLower (pyStrip env.rebootInput) = "y" <;>
  refine ⟨?_, ?_⟩ <;>
    simp [exitCode, progTrace, runScript, initSt, main, ensure_root,
      install_required_packages, download_iso, create_directories, mount_iso,
      copy_contents, unmount_iso, clean_up, run_guest_additions, prompt_reboot,
      run_command, pyTry, pbind, pret, emit, sysExit, shellRun,
      hroot, hcmd, hfile', hr, isFallbackEvent, cleanupBeforePrompt,
      isPromptEvent, isRmdirEvent, isRemoveFileEvent, isRmtreeEvent, List.findIdx_cons]

/-- Witness for claim C8 at the all-success environment. -/
theorem claim_C8_witness :
    (progTrace envAllOk "7.0.8").all (fun e => ! isFallbackEvent e) = true ∧
    cleanupBeforePrompt (progTrace envAllOk "7.0.8") = true :=
  claim_C8 envAllOk "7.0.8" rfl (fun _ _ => rfl) rfl

/-- Claim C9. In every run in which the installer fails at every
attempt (root, installer present, the five setup commands succeed, the
sixth and all later subprocess invocations fail), the process exits
with status 1 and cleanup does not run — no mount-directory, ISO or
extraction-directory removal appears in the trace — and the reboot
prompt is never reached. -/
theorem claim_C9 (env : Env) (v : String) (hroot : env.euid = 0)
    (hfile : env.isfile installerScript = true)
    (hcmd : ∀ n c, env.cmdExit n c = if 5 ≤ n then 1 else 0) :
    exitCode env v = 1 ∧
    (progTrace env v).all (fun e => ! isCleanupEvent e) = true ∧
    (progTrace env v).all (fun e => ! isPromptEvent e) = true := by
  have hfile' : env.isfile "/tmp/VBox_GA/VBoxLinuxAdditions.run" = true := hfile
  refine ⟨?_, ?_, ?_⟩ <;>
    simp [exitCode, progTrace, runScript, initSt, main, ensure_root,
      install_required_packages, download_iso, create_directories, mount_iso,
      copy_contents, unmount_iso, clean_up, run_guest_additions, prompt_reboot,
      run_command, pyTry, pbind, pret, emit, sysExit, shellRun,
      hroot, hcmd, hfile', isCleanupEvent, isPromptEvent]

/-- Witness for claim C9 at the always-failing-installer environment. -/
theorem claim_C9_witness :
    exitCode envInstallerAlwaysFails "7.0.12" = 1 ∧
    (progTrace envInstallerAlwaysFails "7.0.12").all (fun e => ! isCleanupEvent e) = true ∧
    (progTrace envInstallerAlwaysFails "7.0.12").all (fun e => ! isPromptEvent e) = true :=
  claim_C9 envInstallerAlwaysFails "7.0.12" rfl rfl (fun _ _ => rfl)

/-- Claim C10. Every run started without root privileges exits with
status 1 and performs no further action: its whole trace is the single
privilege-failure message, so no package installation, download, mount,
copy, installer invocation or cleanup ever happens. -/
theorem claim_C10 (env : Env) (v : String) (h : env.euid ≠ 0) :
    exitCode env v = 1 ∧
    progTrace env v = [Event.printOut "This script must be run as root!"] := by
  constructor <;>
    simp [exitCode, progTrace, runScript, initSt, main, ensure_root, pbind, emit, sysExit, h]

/-- Witness for claim C10 at a concrete non-root environment. -/
theorem claim_C10_witness :
    envNonRoot.euid ≠ 0 ∧ exitCode envNonRoot "7.0.0" = 1 ∧
    progTrace envNonRoot "7.0.0" = [Event.printOut "This script must be run as root!"] :=
  ⟨by decide, (claim_C10 envNonRoot "7.0.0" (by decide)).1,
    (claim_C10 envNonRoot "7.0.0" (by decide)).2⟩

end VmUtils
